import Mathlib

/-!
# WorkshopForge — shallow embedding and verification of the plan/apply/check pipeline

This file embeds the core of the `workshopforge` repository in Lean 4 and
proves the frozen claims about it.  Pure functions of the Python source
(`forge/utils.py`, `forge/prelude.py`, `forge/policies.py`,
`forge/content_validator.py`, `forge/orchestrator.py`) become Lean
functions; the orchestrator's filesystem effects (the persisted
`state.json`, the files written into the target repository, the
regenerated compliance report) become explicit state passing over a
`World` record.  Machine strings are Lean `String`s and Python byte
hashing is modelled by a full SHA-256 implementation (FIPS 180-4) over
the UTF-8 bytes, exactly as `hashlib.sha256(content.encode("utf-8"))`
computes it, truncated to 16 hex characters as in `compute_hash`.
-/

set_option maxRecDepth 100000

namespace Forge

/-! ## SHA-256 (model of `hashlib.sha256` used by `forge/utils.py:compute_hash`) -/

/-- 2^32, the word modulus of SHA-256. -/
def M32 : Nat := 4294967296

/-- Truncate to a 32-bit word. -/
def w32 (x : Nat) : Nat := x % M32

/-- 32-bit modular addition. -/
def add32 (a b : Nat) : Nat := (a + b) % M32

/-- 32-bit right rotation (input assumed `< 2^32`). -/
def rotr32 (n x : Nat) : Nat := ((x >>> n) ||| (x <<< (32 - n))) % M32

/-- SHA-256 Σ₀. -/
def bsig0 (x : Nat) : Nat := (rotr32 2 x) ^^^ (rotr32 13 x) ^^^ (rotr32 22 x)

/-- SHA-256 Σ₁. -/
def bsig1 (x : Nat) : Nat := (rotr32 6 x) ^^^ (rotr32 11 x) ^^^ (rotr32 25 x)

/-- SHA-256 σ₀. -/
def ssig0 (x : Nat) : Nat := (rotr32 7 x) ^^^ (rotr32 18 x) ^^^ (x >>> 3)

/-- SHA-256 σ₁. -/
def ssig1 (x : Nat) : Nat := (rotr32 17 x) ^^^ (rotr32 19 x) ^^^ (x >>> 10)

/-- SHA-256 Ch. -/
def sch (x y z : Nat) : Nat := (x &&& y) ^^^ ((x ^^^ (M32 - 1)) &&& z)

/-- SHA-256 Maj. -/
def smaj (x y z : Nat) : Nat := (x &&& y) ^^^ (x &&& z) ^^^ (y &&& z)

/-- The 64 SHA-256 round constants. -/
def K256 : List Nat :=
  [1116352408, 1899447441, 3049323471, 3921009573, 961987163, 1508970993,
   2453635748, 2870763221, 3624381080, 310598401, 607225278, 1426881987,
   1925078388, 2162078206, 2614888103, 3248222580, 3835390401, 4022224774,
   264347078, 604807628, 770255983, 1249150122, 1555081692, 1996064986,
   2554220882, 2821834349, 2952996808, 3210313671, 3336571891, 3584528711,
   113926993, 338241895, 666307205, 773529912, 1294757372, 1396182291,
   1695183700, 1986661051, 2177026350, 2456956037, 2730485921, 2820302411,
   3259730800, 3345764771, 3516065817, 3600352804, 4094571909, 275423344,
   430227734, 506948616, 659060556, 883997877, 958139571, 1322822218,
   1537002063, 1747873779, 1955562222, 2024104815, 2227730452, 2361852424,
   2428436474, 2756734187, 3204031479, 3329325298]

/-- The SHA-256 initial hash state. -/
def H256 : List Nat :=
  [1779033703, 3144134277, 1013904242, 2773480762, 1359893119, 2600822924,
   528734635, 1541459225]

/-- The message length, as 8 big-endian bytes. -/
def lenBytes (n : Nat) : List Nat :=
  (List.range 8).map (fun i => (n >>> (8 * (7 - i))) % 256)

/-- SHA-256 padding: `0x80`, zeros to 56 mod 64, then the bit length. -/
def padBytes (msg : List Nat) : List Nat :=
  let L := msg.length
  let zeros := (119 - L % 64) % 64
  msg ++ [0x80] ++ List.replicate zeros 0 ++ lenBytes (8 * L)

/-- Big-endian 32-bit word from 4 bytes. -/
def beWord (b0 b1 b2 b3 : Nat) : Nat := (b0 <<< 24) ||| (b1 <<< 16) ||| (b2 <<< 8) ||| b3

/-- Group a byte list (length a multiple of 4) into big-endian words. -/
def toWords : List Nat → List Nat
  | b0 :: b1 :: b2 :: b3 :: rest => beWord b0 b1 b2 b3 :: toWords rest
  | _ => []

/-- Split a word list into blocks of 16 words; `fuel` bounds the recursion. -/
def chunk16 : Nat → List Nat → List (List Nat)
  | 0, _ => []
  | _, [] => []
  | fuel + 1, ws => ws.take 16 :: chunk16 fuel (ws.drop 16)

/-- Extend a 16-word block with 48 scheduled words. -/
def extendW (fuel : Nat) (acc : List Nat) : List Nat :=
  match fuel with
  | 0 => acc
  | n + 1 =>
    let k := acc.length
    let w := add32 (add32 (acc.getD (k - 16) 0) (ssig0 (acc.getD (k - 15) 0)))
                   (add32 (acc.getD (k - 7) 0) (ssig1 (acc.getD (k - 2) 0)))
    extendW n (acc ++ [w])

/-- One SHA-256 compression round. -/
def round256 (st : Nat × Nat × Nat × Nat × Nat × Nat × Nat × Nat) (kw : Nat × Nat) :
    Nat × Nat × Nat × Nat × Nat × Nat × Nat × Nat :=
  match st, kw with
  | (a, b, c, d, e, f, g, h), (k, wi) =>
    let t1 := add32 (add32 (add32 h (bsig1 e)) (add32 (sch e f g) k)) wi
    let t2 := add32 (bsig0 a) (smaj a b c)
    (add32 t1 t2, a, b, c, add32 d t1, e, f, g)

/-- Compress one 16-word block into the running hash state. -/
def compressChunk (hs : List Nat) (block : List Nat) : List Nat :=
  let ws := extendW 48 block
  match hs with
  | [h0, h1, h2, h3, h4, h5, h6, h7] =>
    let st := (K256.zip ws).foldl round256 (h0, h1, h2, h3, h4, h5, h6, h7)
    match st with
    | (a, b, c, d, e, f, g, h) =>
      [add32 h0 a, add32 h1 b, add32 h2 c, add32 h3 d,
       add32 h4 e, add32 h5 f, add32 h6 g, add32 h7 h]
  | _ => hs

/-- SHA-256 of a byte list, as 8 words. -/
def sha256Words (msg : List Nat) : List Nat :=
  let ws := toWords (padBytes msg)
  (chunk16 ws.length ws).foldl compressChunk H256

/-- A hex digit character (lowercase, as Python's `hexdigest`). -/
def hexChar (n : Nat) : Char := if n < 10 then Char.ofNat (48 + n) else Char.ofNat (87 + n)

/-- A 32-bit word as 8 hex characters. -/
def toHex8 (w : Nat) : List Char :=
  (List.range 8).map (fun i => hexChar ((w >>> (4 * (7 - i))) % 16))

/-- SHA-256 hex digest of a byte list. -/
def sha256hex (msg : List Nat) : String :=
  String.mk (((sha256Words msg).map toHex8).flatten)

/-- UTF-8 encoding of one character, as `str.encode("utf-8")` produces it. -/
def utf8Bytes (c : Char) : List Nat :=
  let n := c.toNat
  if n < 0x80 then [n]
  else if n < 0x800 then [0xC0 ||| (n >>> 6), 0x80 ||| (n &&& 0x3F)]
  else if n < 0x10000 then
    [0xE0 ||| (n >>> 12), 0x80 ||| ((n >>> 6) &&& 0x3F), 0x80 ||| (n &&& 0x3F)]
  else
    [0xF0 ||| (n >>> 18), 0x80 ||| ((n >>> 12) &&& 0x3F),
     0x80 ||| ((n >>> 6) &&& 0x3F), 0x80 ||| (n &&& 0x3F)]

/-- UTF-8 bytes of a string. -/
def strBytes (s : String) : List Nat := (s.data.map utf8Bytes).flatten

/-- `forge/utils.py:compute_hash` — SHA-256 hexdigest of the UTF-8 bytes,
truncated to the first 16 characters. -/
def compute_hash (content : String) : String :=
  (sha256hex (strBytes content)).take 16

/-- Validation of the SHA-256 model against the FIPS 180-4 test vector. -/
theorem sha256_abc_vector : sha256hex (strBytes "abc") =
    "ba7816bf8f01cfea414140de5dae2223b00361a396177a9cb410ff61f20015ad" := by decide

/-! ## `forge/utils.py` helpers -/

/-- ASCII whitespace, as Python's `str.strip()` treats it (the model covers the
ASCII whitespace set; non-ASCII Unicode whitespace is not used by the repo). -/
def pyIsSpace (c : Char) : Bool :=
  c = ' ' || c = '\t' || c = '\n' || c = '\x0d' || c = '\x0b' || c = '\x0c'

/-- Python `str.strip()`: drop leading and trailing whitespace. -/
def pyStrip (s : String) : String :=
  String.mk (((s.data.dropWhile pyIsSpace).reverse.dropWhile pyIsSpace).reverse)

/-- Python `str.startswith`, over the character lists (structural, so that
concrete instances reduce). -/
def strStartsWith (s pre : String) : Bool := pre.data.isPrefixOf s.data

/-- Split a character list at a separator (model of `str.split(sep)`). -/
def splitChar (sep : Char) : List Char → List (List Char)
  | [] => [[]]
  | c :: rest =>
    let r := splitChar sep rest
    if c = sep then [] :: r
    else
      match r with
      | seg :: ss => (c :: seg) :: ss
      | [] => [[c]]

/-- Per-character form of `s.lower().replace(" ", "-").replace("_", "-")` from
`forge/utils.py:safe_filename` (ASCII lowering; characters outside
`[a-z0-9-]` are removed by the next stage either way). -/
def sfMap (c : Char) : Char :=
  let c := c.toLower
  if c = ' ' || c = '_' then '-' else c

/-- The character class kept by `re.sub(r"[^a-z0-9-]", "", s)`. -/
def sfKeep (c : Char) : Bool :=
  ('a' ≤ c && c ≤ 'z') || ('0' ≤ c && c ≤ '9') || c = '-'

/-- `re.sub(r"-+", "-", s)`: collapse every run of dashes to a single dash. -/
def collapseDashes : List Char → List Char
  | [] => []
  | [c] => [c]
  | a :: b :: rest =>
    if a = '-' && b = '-' then collapseDashes (b :: rest)
    else a :: collapseDashes (b :: rest)

/-- `forge/utils.py:safe_filename` — lowercase, spaces/underscores to dashes,
strip to `[a-z0-9-]`, collapse dash runs, strip outer dashes. -/
def safe_filename (s : String) : String :=
  let l := s.data.map sfMap
  let l := l.filter sfKeep
  let l := collapseDashes l
  let l := l.dropWhile (fun c => c = '-')
  let l := (l.reverse.dropWhile (fun c => c = '-')).reverse
  String.mk l

/-! ## Data model (`forge/loader.py` / spec §3)

`SpecLoader.load` produces a dictionary with the workshop descriptor, the
module list, the profile, and the two free-text documents; the prelude
generator reads exactly the fields modelled below.  The loader caches its
result (`self._specs`), so within one orchestrator run the Specification
is a fixed value — which is how it appears here. -/

/-- `workshop.yml`'s `duration` block as read by the prelude generator. -/
structure WDuration where
  groups : Nat
  sessions_per_group : Nat
  session_minutes : Nat
deriving DecidableEq, Repr

/-- `workshop.yml`'s `policy` block as read by the prelude generator. -/
structure WPolicy where
  student_ai_usage : String
  license : String
deriving DecidableEq, Repr

/-- `workshop.yml`'s `outputs` block; both flags default to `True` via
`workshop.get("outputs", {}).get("slides", True)`. -/
structure WOutputs where
  slides : Bool := true
  handouts : Bool := true
deriving DecidableEq, Repr

/-- The workshop descriptor fields the core reads. -/
structure Workshop where
  id : String
  title : String
  version : String
  audience : String
  duration : WDuration
  policy : WPolicy
  outputs : WOutputs
deriving DecidableEq, Repr

/-- A module descriptor (`modules.yml` entry).  `title` is optional in the
source (`module.get("title", module["id"])`); `deliverables` and
`depends_on` default to `[]`. -/
structure Module where
  id : String
  title : Option String
  objective : String
  duration_minutes : Nat
  deliverables : List String
  depends_on : List String
deriving DecidableEq, Repr

/-- The loaded specification aggregate (`SpecLoader.load`): workshop
descriptor, module list, profile domain, and the two free-text documents
(empty string when the file is absent). -/
structure Specification where
  workshop : Workshop
  profile_domain : String
  modules : List Module
  project : String
  ai_guidelines : String
deriving DecidableEq, Repr

/-! ## `forge/prelude.py:PreludeGenerator.generate` -/

/-- Python renders a `bool` as `True`/`False` inside an f-string. -/
def pyBool (b : Bool) : String := if b then "True" else "False"

/-- The per-module subsection of the prelude (loop body at
`prelude.py:85-96`), with `i` the 1-based module index. -/
def moduleSections (i : Nat) (m : Module) : List String :=
  ["### " ++ toString i ++ ". " ++ (m.title.getD m.id) ++ " (`" ++ m.id ++ "`)",
   "**Objective:** " ++ m.objective,
   "**Duration:** " ++ toString m.duration_minutes ++ " min",
   "**Deliverables:**"]
  ++ m.deliverables.map (fun d => "  - `" ++ d ++ "`")
  ++ (if m.depends_on.isEmpty then []
      else ["**Prerequisites:** " ++ String.intercalate ", " m.depends_on])
  ++ [""]

/-- All module subsections, numbered from 1 (`enumerate(modules, 1)`). -/
def modulesSections (i : Nat) : List Module → List String
  | [] => []
  | m :: rest => moduleSections i m ++ modulesSections (i + 1) rest

/-- The full section list built by `PreludeGenerator.generate`. -/
def preludeSections (s : Specification) : List String :=
  ["# Workshop Specification Context",
   "",
   "**Workshop ID:** " ++ s.workshop.id,
   "**Title:** " ++ s.workshop.title,
   "**Version:** " ++ s.workshop.version,
   "**Audience:** " ++ s.workshop.audience,
   "**Domain:** " ++ s.profile_domain,
   "",
   "## Structure and Policies",
   "",
   "- Duration: " ++ toString s.workshop.duration.groups ++ " groups × "
     ++ toString s.workshop.duration.sessions_per_group ++ " sessions ("
     ++ toString s.workshop.duration.session_minutes ++ " min each)",
   "- Student AI usage: **" ++ s.workshop.policy.student_ai_usage ++ "**",
   "- License: " ++ s.workshop.policy.license,
   "- Outputs: slides=" ++ pyBool s.workshop.outputs.slides
     ++ ", handouts=" ++ pyBool s.workshop.outputs.handouts,
   "",
   "## Repository Structure",
   "",
   "```",
   s.workshop.id ++ "/",
   "  spec/          # Specifications (source of truth)",
   "  labs/          # Student exercises",
   "  instructor/    # Instructor-only materials",
   "  reference/     # Reference solutions",
   "```",
   "",
   "## Learning Modules",
   ""]
  ++ modulesSections 1 s.modules
  ++ (if s.project.isEmpty then []
      else ["## Project Context", "", pyStrip s.project, ""])
  ++ (if s.ai_guidelines.isEmpty then []
      else ["## AI Generation Guidelines", "", pyStrip s.ai_guidelines, ""])
  ++ ["## Constraints and Rules",
      "",
      "1. All generated content MUST align with module objectives",
      "2. All declared deliverables MUST be created",
      "3. Student AI policy MUST be respected in materials",
      "4. File naming follows spec conventions (lowercase, dashes)",
      "5. Instructor vs student separation MUST be maintained",
      "6. Code and documentation are written in English",
      "7. Generated materials reference their spec source (e.g., `modules.yml#module-id`)",
      "",
      "---",
      "",
      "Use this context to ensure all AI-generated content is spec-compliant,",
      "consistent across sessions, and aligned with workshop objectives."]

/-- `PreludeGenerator.generate`: the canonical digest text,
`"\n".join(sections)`. -/
def generate (s : Specification) : String :=
  String.intercalate "\n" (preludeSections s)

/-- `PreludeGenerator.get_hash`: `compute_hash` of the digest text. -/
def digestHash (s : Specification) : String := compute_hash (generate s)

/-- The spec's `ContextDigestBuilder.build(spec) -> (text, hash)`, realized in
the source as `generate` plus `get_hash`. -/
def build (s : Specification) : String × String := (generate s, digestHash s)

/-! ## `forge/policies.py` -/

/-- `PolicyViolation`: rule id, severity (`"error"` or `"warn"`), message,
optional path. -/
structure PolicyViolation where
  rule_id : String
  severity : String
  message : String
  path : Option String := none
deriving DecidableEq, Repr

/-- The context handed to every rule (`PolicyEngine.check` builds a dict with
`spec_loader` and `target_dir`; the optional config is not read by the
orchestrator paths modelled here).  `target_dir` is `none` when the
generated workshop does not exist yet. -/
structure RuleContext where
  spec : Specification
  target_dir : Option String
deriving Repr

/-- A policy rule, as the engine consumes it: an evaluator from context to
violations (`PolicyRule.check`).  The engine holds an ordered, open list of
these (`DEFAULT_RULES` in the source registers seven). -/
def PolicyRule : Type := RuleContext → List PolicyViolation

/-- `PolicyEngine.check`: run every registered rule in order and concatenate
the violations (`violations.extend(rule.check(context))`). -/
def engineCheck (rules : List PolicyRule) (ctx : RuleContext) : List PolicyViolation :=
  rules.foldl (fun acc r => acc ++ r ctx) []

/-- `PolicyEngine.has_errors`: any violation of severity `"error"`. -/
def hasErrors (violations : List PolicyViolation) : Bool :=
  violations.any (fun v => v.severity = "error")

/-- `PolicyEngine.filter_allowed`: keep the violations whose rule id is not in
the allow-list. -/
def filter_allowed (violations : List PolicyViolation) (allowed_rules : List String) :
    List PolicyViolation :=
  violations.filter (fun v => !allowed_rules.contains v.rule_id)

/-! ## `forge/orchestrator.py`

The orchestrator's durable effects are threaded through an explicit
`World`: the persisted `state.json` record, the files written into the
target repository by `_apply_changes`, and the compliance report files.
The audit log (`_log_operation`, always written, timestamp-named) lives
outside this world; no claim is about it. -/

/-- `state.json` — the persisted `OrchestratorState` written by
`_update_state`. -/
structure OrchestratorState where
  spec_hash : String
  provider : String
  last_goal : String
  updated_at : String
deriving DecidableEq, Repr

/-- One entry of a ChangeSet (`_simulate_changes` produces these dicts;
`content` is absent there and defaulted at write time). -/
structure Change where
  path : String
  action : String
  description : String
  content : Option String := none
deriving DecidableEq, Repr

/-- The durable state the orchestrator reads and writes. -/
structure World where
  persisted : Option OrchestratorState
  repoFiles : List (String × String)
  reportFiles : List (String × String)
deriving DecidableEq, Repr

/-- `AIOrchestrator._simulate_changes`: the ChangeSet staged for a goal — a
single `create` action. -/
def simulateChanges (goal : String) : List Change :=
  [{ path := "example/generated-file.md", action := "create",
     description := "Generated for goal: " ++ goal }]

/-- The content written for a change:
`change.get("content", f"# Generated content\n\nGoal: {desc}")`. -/
def changeContent (c : Change) : String :=
  c.content.getD ("# Generated content\n\nGoal: " ++ c.description)

/-- `AIOrchestrator._apply_changes`: write each `create` entry into the
target repository (other actions are not implemented and write nothing). -/
def applyChanges (changes : List Change) (files : List (String × String)) :
    List (String × String) :=
  changes.foldl
    (fun fs c => if c.action = "create" then fs ++ [(c.path, changeContent c)] else fs)
    files

/-- The policy gate inside `apply` (orchestrator.py:145-147): write the
staged ChangeSet only when no error-severity violation survives. -/
def applyStage (changes : List Change) (violations : List PolicyViolation)
    (w : World) : World :=
  if hasErrors violations then w
  else { w with repoFiles := applyChanges changes w.repoFiles }

/-- Modelled from the spec: `ComplianceReporter.generate_reports`
(`forge/reporters.py` is not under `src/`; its callers are).  Spec §6:
"Compliance report (produced, consumed by humans): a rendering of the
current violation set grouped by severity, regenerated on every
`check`/`apply`."  The rendering groups errors before warnings. -/
def renderReport (violations : List PolicyViolation) : String :=
  let errs := violations.filter (fun v => v.severity = "error")
  let warns := violations.filter (fun v => v.severity ≠ "error")
  String.intercalate "\n"
    (["# Compliance Report", "", "## Errors"]
      ++ errs.map (fun v => "- [" ++ v.rule_id ++ "] " ++ v.message)
      ++ ["", "## Warnings"]
      ++ warns.map (fun v => "- [" ++ v.rule_id ++ "] " ++ v.message))

/-- Modelled from the spec (continued): writing the report file is appending
one rendered report under the reports directory. -/
def generateReports (violations : List PolicyViolation) (w : World) : World :=
  { w with reportFiles := w.reportFiles ++ [("compliance.md", renderReport violations)] }

/-- The message of the `RuntimeError` raised by
`AIOrchestrator._verify_spec_stability` on a digest hash mismatch. -/
def stabilityMsg : String :=
  "Spec hash changed since last operation. Specifications were modified. Re-run plan to update."

/-- The result dictionary `apply` returns. -/
structure ApplyResult where
  success : Bool
  goal : String
  spec_hash : String
  provider : String
  applied_at : String
  changes : List Change
  violations : List PolicyViolation
  message : String
deriving DecidableEq, Repr

/-- The violations that survive inside `apply` (orchestrator.py:126-130):
the full engine run, minus the allow-list subtraction — which, as in the
source's `if allow_violations:`, is skipped entirely for an empty
allow-list. -/
def survivingViolations (rules : List PolicyRule) (spec : Specification)
    (targetDir : Option String) (allowViolations : List String) : List PolicyViolation :=
  let checked := engineCheck rules { spec := spec, target_dir := targetDir }
  if allowViolations.isEmpty then checked
  else filter_allowed checked allowViolations

/-- The body of `apply` after the stability gate has passed
(orchestrator.py:120-162): stage the simulated ChangeSet, compute the
surviving violations, gate the writes on `has_errors`, regenerate the
compliance report, and unconditionally persist the new
`OrchestratorState` (`_update_state` at line 160). -/
def applyPost (rules : List PolicyRule) (spec : Specification) (goal : String)
    (allowViolations : List String) (targetDir : Option String)
    (provider now : String) (w : World) : Except String ApplyResult × World :=
  let planHash := digestHash spec
  let changes := simulateChanges goal
  let violations := survivingViolations rules spec targetDir allowViolations
  let blocked := hasErrors violations
  let w1 := applyStage changes violations w
  let message :=
    if blocked then
      "Blocked by " ++
        toString (violations.filter (fun v => v.severity = "error")).length ++
        " policy errors"
    else "Applied " ++ toString changes.length ++ " changes successfully"
  let w2 := generateReports violations w1
  let newState : OrchestratorState :=
    { spec_hash := planHash, provider := provider, last_goal := goal, updated_at := now }
  let w3 := { w2 with persisted := some newState }
  (Except.ok
    { success := !blocked, goal := goal, spec_hash := planHash, provider := provider,
      applied_at := now, changes := changes, violations := violations,
      message := message }, w3)

/-- `AIOrchestrator.apply`: run `plan` (the digest hash it computes is
`digestHash spec`; its audit-log writes are outside `World`), then
`_verify_spec_stability` — raising `RuntimeError` when a persisted state
exists whose hash differs from the fresh one — and only then the gated
write path `applyPost`. -/
def applyOp (rules : List PolicyRule) (spec : Specification) (goal : String)
    (allowViolations : List String) (targetDir : Option String)
    (provider now : String) (w : World) : Except String ApplyResult × World :=
  match w.persisted with
  | some st =>
    if st.spec_hash ≠ digestHash spec then (Except.error stabilityMsg, w)
    else applyPost rules spec goal allowViolations targetDir provider now w
  | none => applyPost rules spec goal allowViolations targetDir provider now w

/-- `AIOrchestrator.check`: run the full rule set, regenerate the compliance
report, and return the violations.  It never touches `persisted` or the
target repository. -/
def checkOp (rules : List PolicyRule) (spec : Specification)
    (targetDir : Option String) (w : World) : List PolicyViolation × World :=
  let violations := engineCheck rules { spec := spec, target_dir := targetDir }
  (violations, generateReports violations w)

/-! ## `AIOrchestrator.explain` -/

/-- `pathlib` path segments (PurePosixPath normalization: empty and `.`
segments are dropped; the claims only concern relative paths, where this
matches `Path(p).parts`). -/
def pathParts (p : String) : List String :=
  ((splitChar '/' p.data).map String.mk).filter (fun seg => seg ≠ "" && seg ≠ ".")

/-- `Path(p).name` — the final path segment. -/
def basename (p : String) : String := (pathParts p).getLastD ""

/-- The explanation line appended for a module whose deliverables match
(orchestrator.py:200-203). -/
def deliverableEntry (m : Module) : String :=
  "- Deliverable for module `" ++ m.id ++ "` (modules.yml#" ++ m.id ++ ")\n"
    ++ "  Objective: " ++ m.objective

/-- Does `explain` count `file_path` as a deliverable of `m`?  Source:
`file_path in deliverables or str(path.name) in [Path(d).name for d in
deliverables]`. -/
def deliverableMatch (m : Module) (file_path : String) : Bool :=
  m.deliverables.contains file_path
    || (m.deliverables.map basename).contains (basename file_path)

/-- The explanation list `explain` accumulates: one entry per matching
module, then the instructor / reference / labs markers. -/
def explainEntries (modules : List Module) (file_path : String) : List String :=
  modules.filterMap
    (fun m => if deliverableMatch m file_path then some (deliverableEntry m) else none)
  ++ (if (pathParts file_path).contains "instructor"
      then ["- Part of instructor-only materials (not for students)"] else [])
  ++ (if (pathParts file_path).contains "reference"
      then ["- Reference solution (instructor access only)"] else [])
  ++ (if (pathParts file_path).contains "labs"
      then ["- Student-facing lab exercise"] else [])

/-- The neutral result when nothing matches. -/
def neutralMsg (file_path : String) : String :=
  "File `" ++ file_path ++ "` is not directly referenced in specifications."

/-- `AIOrchestrator.explain`. -/
def explain (modules : List Module) (file_path : String) : String :=
  let es := explainEntries modules file_path
  if es.isEmpty then neutralMsg file_path
  else "# File: " ++ file_path ++ "\n\n## Spec References\n\n"
        ++ String.intercalate "\n" es

/-! ## `forge/content_validator.py:SlideValidator`

`validate_file` reads the slide file with `readlines()` and hands the
line list to each check; every test in the two checks modelled here is on
`line.strip()`, so the lines are taken as given (with or without their
trailing newline, `pyStrip` erases it). -/

/-- `SlideValidator.MAX_BULLETS`. -/
def MAX_BULLETS : Nat := 5

/-- `SlideValidator.MAX_TOTAL_LINES`. -/
def MAX_TOTAL_LINES : Nat := 15

/-- A `ContentViolation` (the `file` field is the constant slide path and is
carried for fidelity). -/
structure ContentViolation where
  file : String
  line : Nat
  rule : String
  message : String
deriving DecidableEq, Repr

/-- The violation emitted by `_check_total_content_per_slide` at a slide
separator. -/
def totalViolation (file : String) (slide_start content_lines : Nat) : ContentViolation :=
  { file := file, line := slide_start, rule := "total-content",
    message := "Slide has " ++ toString content_lines ++ " content lines (max "
      ++ toString MAX_TOTAL_LINES ++ "). "
      ++ "Split into multiple slides - Cognitive Load Theory suggests less is better." }

/-- `_check_total_content_per_slide`'s loop: `i` is the 1-based number of the
current line; state is `(slide_start, content_lines, in_code)`.  Note the
loop emits a violation only on a `---` separator line and has no
end-of-file emission. -/
def totalContentGo (file : String) (i slide_start content_lines : Nat)
    (in_code : Bool) : List String → List ContentViolation
  | [] => []
  | line :: rest =>
    let stripped := pyStrip line
    if stripped = "---" then
      (if content_lines > MAX_TOTAL_LINES
        then [totalViolation file slide_start content_lines] else [])
        ++ totalContentGo file (i + 1) (i + 1) 0 false rest
    else if strStartsWith stripped "```" then
      totalContentGo file (i + 1) slide_start content_lines (!in_code) rest
    else if stripped ≠ "" && !strStartsWith stripped "#" then
      totalContentGo file (i + 1) slide_start (content_lines + 1) in_code rest
    else
      totalContentGo file (i + 1) slide_start content_lines in_code rest

/-- `SlideValidator._check_total_content_per_slide`. -/
def totalContentViolations (file : String) (lines : List String) : List ContentViolation :=
  totalContentGo file 1 0 0 false lines

/-- Bullet markers recognized by `_check_bullet_lists`. -/
def isBullet (stripped : String) : Bool :=
  strStartsWith stripped "- " || strStartsWith stripped "* " || strStartsWith stripped "+ "
    || strStartsWith stripped "✅ " || strStartsWith stripped "❌ "

/-- The violation emitted by `_check_bullet_lists` at a slide separator. -/
def bulletViolation (file : String) (slide_start bullet_count : Nat) : ContentViolation :=
  { file := file, line := slide_start, rule := "bullet-count",
    message := "Slide has " ++ toString bullet_count ++ " bullet points (max "
      ++ toString MAX_BULLETS ++ "). " ++ "Split content across multiple slides." }

/-- The violation `_check_bullet_lists` emits for the final slide after the
loop (its message lacks the trailing advice sentence). -/
def bulletViolationLast (file : String) (slide_start bullet_count : Nat) : ContentViolation :=
  { file := file, line := slide_start, rule := "bullet-count",
    message := "Slide has " ++ toString bullet_count ++ " bullet points (max "
      ++ toString MAX_BULLETS ++ ")" }

/-- `_check_bullet_lists`'s loop, plus its explicit final-slide check. -/
def bulletGo (file : String) (i slide_start bullet_count : Nat) :
    List String → List ContentViolation
  | [] =>
    if bullet_count > MAX_BULLETS
      then [bulletViolationLast file slide_start bullet_count] else []
  | line :: rest =>
    let stripped := pyStrip line
    if stripped = "---" then
      (if bullet_count > MAX_BULLETS
        then [bulletViolation file slide_start bullet_count] else [])
        ++ bulletGo file (i + 1) (i + 1) 0 rest
    else if isBullet stripped then
      bulletGo file (i + 1) slide_start (bullet_count + 1) rest
    else
      bulletGo file (i + 1) slide_start bullet_count rest

/-- `SlideValidator._check_bullet_lists`. -/
def bulletViolations (file : String) (lines : List String) : List ContentViolation :=
  bulletGo file 1 0 0 lines

/-! ## Concrete example data (used by counterexamples and witnesses) -/

/-- A small concrete workshop descriptor. -/
def exWorkshop : Workshop :=
  { id := "ws", title := "T", version := "1", audience := "devs",
    duration := { groups := 1, sessions_per_group := 2, session_minutes := 60 },
    policy := { student_ai_usage := "allowed", license := "MIT" },
    outputs := {} }

/-- A concrete module with two prerequisites. -/
def exModule : Module :=
  { id := "setup", title := none, objective := "Set up env", duration_minutes := 60,
    deliverables := ["labs/setup/README.md"], depends_on := ["intro", "basics"] }

/-- A concrete specification. -/
def exSpec : Specification :=
  { workshop := exWorkshop, profile_domain := "general", modules := [exModule],
    project := "", ai_guidelines := "" }

/-- `exModule` with its `depends_on` list — one field — changed from
`["intro", "basics"]` to the single string `["intro, basics"]`. -/
def exModuleJoined : Module := { exModule with depends_on := ["intro, basics"] }

/-- `exSpec` with that one module field changed. -/
def exSpecJoined : Specification := { exSpec with modules := [exModuleJoined] }

/-- `exModule` with its duration — one field — changed from 60 to 61. -/
def exModule61 : Module := { exModule with duration_minutes := 61 }

/-- `exSpec` with that one module field changed. -/
def exSpec61 : Specification := { exSpec with modules := [exModule61] }

/-! ## Claims -/

/-- **C4.** For every Specification value, building the context digest twice
produces identical digest text and identical hash, and the hash is a
function of the digest text alone.  The source's `generate` reads only the
loader's cached specification value — no wall-clock time, no file-system
iteration (the loader reads a fixed file-name list), no randomness — so it
embeds as the pure function `generate`; repeated builds are then equal by
reflexivity, and `get_hash` is `compute_hash` of the text. -/
theorem digest_build_deterministic (s : Specification) :
    build s = build s
    ∧ (build s).2 = compute_hash (build s).1
    ∧ (∀ t : Specification, generate s = generate t → digestHash s = digestHash t) :=
  ⟨rfl, by simp only [build, digestHash], fun _ h => congrArg compute_hash h⟩

/-- **C5, counterexample.**  Changing a single field of a single module —
`depends_on` from `["intro", "basics"]` to `["intro, basics"]` — produces a
different Specification whose rendered digest text is byte-identical
(`", ".join` erases the list structure), hence an identical hash.  So not
every single-field change changes the digest hash. -/
theorem digest_sensitivity_counterexample :
    exSpecJoined = { exSpec with modules := [{ exModule with depends_on := ["intro, basics"] }] }
    ∧ exSpec ≠ exSpecJoined
    ∧ generate exSpec = generate exSpecJoined
    ∧ digestHash exSpec = digestHash exSpecJoined := by
  have hsec : preludeSections exSpec = preludeSections exSpecJoined := by decide
  have htext : generate exSpec = generate exSpecJoined :=
    congrArg (String.intercalate "\n") hsec
  refine ⟨rfl, by decide, htext, ?_⟩
  simp only [digestHash]
  exact congrArg compute_hash htext

/-- **C5, amended.**  A single-field change alters the digest hash only
through the rendered digest text: `depends_on` `["intro", "basics"]` versus
`["intro, basics"]` renders identically and so keeps the hash
(counterexample above).  The spec's sensitivity example holds at the text
level: changing a module's duration from 60 to 61 changes the canonical
digest text (shown on a concrete Specification, first conjunct), the hash
is a function of that text alone (second conjunct), and the truncated
SHA-256 separates the two duration renderings (third conjunct). -/
theorem digest_sensitivity_amended :
    generate exSpec ≠ generate exSpec61
    ∧ (∀ s t : Specification, generate s = generate t → digestHash s = digestHash t)
    ∧ compute_hash "**Duration:** 60 min" ≠ compute_hash "**Duration:** 61 min" := by
  refine ⟨by decide, ?_, by decide⟩
  intro s t h
  simp only [digestHash]
  exact congrArg compute_hash h

/-- **C6.** `filter_allowed` removes exactly the violations whose rule id is
in the allow-list: membership in the result is membership in the input
minus an allow-listed rule id; the survivors keep their relative order
(`Sublist`); every violation with an allow-listed rule id — whatever its
severity, in particular an error-severity violation with rule id `R` under
`allowed_rule_ids = ["R"]` — is removed; and every violation whose rule id
is not allow-listed survives — severity alone (e.g. `warn`) never removes
a violation. -/
theorem filter_allowed_exact (violations : List PolicyViolation) (allowed : List String) :
    (∀ v, v ∈ filter_allowed violations allowed ↔ v ∈ violations ∧ v.rule_id ∉ allowed)
    ∧ (filter_allowed violations allowed).Sublist violations
    ∧ (∀ v ∈ violations, v.rule_id ∈ allowed → v ∉ filter_allowed violations allowed)
    ∧ (∀ v ∈ violations, v.rule_id ∉ allowed → v ∈ filter_allowed violations allowed) := by
  have hmem : ∀ v, v ∈ filter_allowed violations allowed ↔ v ∈ violations ∧ v.rule_id ∉ allowed := by
    intro v
    simp [filter_allowed, List.mem_filter]
  refine ⟨hmem, List.filter_sublist _, ?_, ?_⟩
  · intro v hv hall hmem'
    exact ((hmem v).1 hmem').2 hall
  · intro v hv hall
    exact (hmem v).2 ⟨hv, hall⟩

/-! ### Helper lemmas about `collapseDashes` (for C10) -/

/-- Collapsing dash runs keeps the first character. -/
theorem collapseDashes_head? (l : List Char) : (collapseDashes l).head? = l.head? := by
  induction l with
  | nil => rfl
  | cons a t ih =>
    cases t with
    | nil => rfl
    | cons b r =>
      simp only [collapseDashes]
      by_cases h : (a = '-' && b = '-') = true
      · rw [if_pos h, ih]
        simp only [Bool.and_eq_true, decide_eq_true_eq] at h
        simp [h.1, h.2]
      · rw [if_neg h]
        rfl

/-- Collapsing dash runs only removes characters. -/
theorem collapseDashes_subset (l : List Char) : collapseDashes l ⊆ l := by
  induction l with
  | nil => simp [collapseDashes]
  | cons a t ih =>
    cases t with
    | nil => simp [collapseDashes]
    | cons b r =>
      simp only [collapseDashes]
      by_cases h : (a = '-' && b = '-') = true
      · rw [if_pos h]
        exact fun x hx => List.mem_cons_of_mem a (ih hx)
      · rw [if_neg h]
        intro x hx
        rcases List.mem_cons.1 hx with hxa | hxt
        · exact hxa ▸ List.mem_cons_self _ _
        · exact List.mem_cons_of_mem a (ih hxt)

/-- After collapsing, no two adjacent characters are both dashes. -/
theorem collapseDashes_chain' (l : List Char) :
    (collapseDashes l).Chain' (fun a b => a ≠ '-' ∨ b ≠ '-') := by
  induction l with
  | nil => exact List.chain'_nil
  | cons a t ih =>
    cases t with
    | nil => exact List.chain'_singleton a
    | cons b r =>
      simp only [collapseDashes]
      by_cases h : (a = '-' && b = '-') = true
      · rw [if_pos h]
        exact ih
      · rw [if_neg h]
        refine List.chain'_cons'.2 ⟨?_, ih⟩
        intro y hy
        rw [collapseDashes_head?] at hy
        simp only [List.head?_cons, Option.mem_def, Option.some.injEq] at hy
        subst hy
        by_cases ha : a = '-'
        · right
          intro hb
          simp [ha, hb] at h
        · exact Or.inl ha

/-- A nonempty prefix starts where the whole list starts. -/
theorem IsPrefix.head?_eq {l' l : List Char} (h : l' <+: l) (hne : l' ≠ []) :
    l.head? = l'.head? := by
  obtain ⟨t, rfl⟩ := h
  cases l' with
  | nil => exact absurd rfl hne
  | cons a u => rfl

/-- The head surviving `dropWhile p` fails `p`. -/
theorem head?_dropWhile_ne (p : Char → Bool) (l : List Char) (c : Char)
    (h : (l.dropWhile p).head? = some c) : p c = false := by
  induction l with
  | nil => simp [List.dropWhile] at h
  | cons a t ih =>
    rw [List.dropWhile_cons] at h
    by_cases hp : p a = true
    · rw [if_pos hp] at h
      exact ih h
    · rw [if_neg hp] at h
      simp only [List.head?_cons, Option.some.injEq] at h
      subst h
      exact Bool.not_eq_true _ ▸ hp

/-- The last character surviving `rdropWhile p` fails `p`. -/
theorem getLast?_rdropWhile_ne (p : Char → Bool) (l : List Char) (c : Char)
    (h : (List.rdropWhile p l).getLast? = some c) : p c = false := by
  rw [List.rdropWhile, List.getLast?_reverse] at h
  exact head?_dropWhile_ne p l.reverse c h

/-- **C10.** For every input string, `safe_filename` returns only lowercase
ASCII letters, digits, and dashes; no two adjacent characters are both
dashes; and the result neither starts nor ends with a dash.  (The result
may be empty.) -/
theorem safe_filename_slug (s : String) :
    (∀ c ∈ (safe_filename s).data, sfKeep c = true)
    ∧ (safe_filename s).data.Chain' (fun a b => a ≠ '-' ∨ b ≠ '-')
    ∧ (safe_filename s).data.head? ≠ some '-'
    ∧ (safe_filename s).data.getLast? ≠ some '-' := by
  have hdata : (safe_filename s).data =
      List.rdropWhile (fun c => c = '-')
        ((collapseDashes ((s.data.map sfMap).filter sfKeep)).dropWhile (fun c => c = '-')) := rfl
  rw [hdata]
  refine ⟨?_, ?_, ?_, ?_⟩
  · intro c hc
    exact List.of_mem_filter (collapseDashes_subset _
      ((List.dropWhile_suffix _).sublist.subset
        (( List.rdropWhile_prefix _ _).sublist.subset hc)))
  · exact List.Chain'.prefix
      ((collapseDashes_chain' _).suffix (List.dropWhile_suffix _))
      ( List.rdropWhile_prefix _ _)
  · intro hcon
    have hne : List.rdropWhile (fun c => c = '-')
        ((collapseDashes ((s.data.map sfMap).filter sfKeep)).dropWhile (fun c => c = '-'))
        ≠ [] := by
      intro h0
      rw [h0] at hcon
      simp at hcon
    have h1 : ((collapseDashes ((s.data.map sfMap).filter sfKeep)).dropWhile
        (fun c => c = '-')).head? = some '-' := by
      rw [IsPrefix.head?_eq ( List.rdropWhile_prefix _ _) hne]
      exact hcon
    have h2 := head?_dropWhile_ne _ _ _ h1
    simp at h2
  · intro hcon
    have h2 := getLast?_rdropWhile_ne _ _ _ hcon
    simp at h2

/-! ### Helper lemmas for the slide checks (C9) -/

/-- On separator-free input, the total-content loop emits nothing, whatever
its state: violations are only emitted at a `---` line. -/
theorem totalContentGo_sepFree (file : String) (t : List String)
    (h : ∀ x ∈ t, pyStrip x ≠ "---") :
    ∀ i ss cl ic, totalContentGo file i ss cl ic t = [] := by
  induction t with
  | nil => intro i ss cl ic; rfl
  | cons l rest ih =>
    intro i ss cl ic
    have hl : ¬ pyStrip l = "---" := h l (List.mem_cons_self _ _)
    have hrest : ∀ x ∈ rest, pyStrip x ≠ "---" :=
      fun x hx => h x (List.mem_cons_of_mem _ hx)
    simp only [totalContentGo]
    rw [if_neg hl]
    split
    · exact ih hrest _ _ _ _
    · split
      · exact ih hrest _ _ _ _
      · exact ih hrest _ _ _ _

/-- Appending separator-free lines after a slide file changes nothing in the
total-content check, whatever the loop state on entry. -/
theorem totalContentGo_append (file : String) (ls t : List String)
    (h : ∀ x ∈ t, pyStrip x ≠ "---") :
    ∀ i ss cl ic,
      totalContentGo file i ss cl ic (ls ++ t) = totalContentGo file i ss cl ic ls := by
  induction ls with
  | nil =>
    intro i ss cl ic
    simp only [List.nil_append]
    exact totalContentGo_sepFree file t h i ss cl ic
  | cons l rest ih =>
    intro i ss cl ic
    simp only [List.cons_append, totalContentGo, List.append_eq]
    split
    · rw [ih]
    · split
      · exact ih _ _ _ _
      · split
        · exact ih _ _ _ _
        · exact ih _ _ _ _

/-- **C9.** The per-slide total-content check only reports slide segments
terminated by a `---` separator: appending lines that contain no separator
(in particular, the content after the last `---` of a file) never changes
its result — e.g. sixteen content lines with no separator, one over
`MAX_TOTAL_LINES`, yield no violation — whereas the bullet-count check
does evaluate that final segment (six bullets with no separator are
reported). -/
theorem total_content_skips_final_segment (file : String) (ls t : List String)
    (h : ∀ x ∈ t, pyStrip x ≠ "---") :
    totalContentViolations file (ls ++ t) = totalContentViolations file ls
    ∧ totalContentViolations "slides.md" (List.replicate 16 "content") = []
    ∧ bulletViolations "slides.md" (List.replicate 6 "- item") ≠ [] := by
  refine ⟨?_, by decide, by decide⟩
  exact totalContentGo_append file ls t h 1 0 0 false

/-! ### Helper lemmas for `explain` (C8) -/

/-- The non-neutral branch of `explain` starts with `#`. -/
theorem explain_positive_head (p : String) (es : List String) :
    ("# File: " ++ p ++ "\n\n## Spec References\n\n"
      ++ String.intercalate "\n" es).data.head? = some '#' := by
  rw [String.data_append, String.data_append, String.data_append]
  rfl

/-- The neutral message starts with `F`. -/
theorem neutral_head (p : String) : (neutralMsg p).data.head? = some 'F' := by
  rw [neutralMsg, String.data_append, String.data_append]
  rfl

/-- **C8.** `explain` reports a path as a deliverable of a module as soon as
its basename equals the basename of one of the module's deliverables —
full-path membership is not required (the witness below uses a path that
is not among the declared deliverables) — and it returns the neutral
not-referenced message exactly when no module matches and none of the
`instructor` / `reference` / `labs` segments occurs in the path. -/
theorem explain_basename_match (modules : List Module) (fp : String) (m : Module)
    (hm : m ∈ modules) (hb : basename fp ∈ m.deliverables.map basename) :
    deliverableEntry m ∈ explainEntries modules fp
    ∧ (∀ (ms : List Module) (p : String),
        explain ms p = neutralMsg p ↔
          (∀ m' ∈ ms, deliverableMatch m' p = false)
          ∧ (pathParts p).contains "instructor" = false
          ∧ (pathParts p).contains "reference" = false
          ∧ (pathParts p).contains "labs" = false) := by
  constructor
  · have hmatch : deliverableMatch m fp = true := by
      simp [deliverableMatch]
      right
      simpa using hb
    refine List.mem_append_left _ (List.mem_append_left _ (List.mem_append_left _ ?_))
    exact List.mem_filterMap.2 ⟨m, hm, by rw [if_pos hmatch]⟩
  · intro ms p
    have hempty : explainEntries ms p = [] ↔
        (∀ m' ∈ ms, deliverableMatch m' p = false)
        ∧ (pathParts p).contains "instructor" = false
        ∧ (pathParts p).contains "reference" = false
        ∧ (pathParts p).contains "labs" = false := by
      simp only [explainEntries, List.append_eq_nil, List.filterMap_eq_nil_iff]
      constructor
      · rintro ⟨⟨⟨hmod, hinst⟩, href⟩, hlab⟩
        refine ⟨?_, ?_, ?_, ?_⟩
        · intro m' hm'
          have := hmod m' hm'
          by_cases hd : deliverableMatch m' p = true
          · rw [if_pos hd] at this
            exact absurd this (by simp)
          · exact Bool.not_eq_true _ ▸ hd
        · by_cases hi : (pathParts p).contains "instructor" = true
          · rw [if_pos hi] at hinst
            exact absurd hinst (by simp)
          · exact Bool.not_eq_true _ ▸ hi
        · by_cases hi : (pathParts p).contains "reference" = true
          · rw [if_pos hi] at href
            exact absurd href (by simp)
          · exact Bool.not_eq_true _ ▸ hi
        · by_cases hi : (pathParts p).contains "labs" = true
          · rw [if_pos hi] at hlab
            exact absurd hlab (by simp)
          · exact Bool.not_eq_true _ ▸ hi
      · rintro ⟨hmod, hinst, href, hlab⟩
        refine ⟨⟨⟨?_, ?_⟩, ?_⟩, ?_⟩
        · intro m' hm'
          rw [if_neg (by rw [hmod m' hm']; simp)]
        · rw [if_neg (by rw [hinst]; simp)]
        · rw [if_neg (by rw [href]; simp)]
        · rw [if_neg (by rw [hlab]; simp)]
    rw [← hempty]
    rw [explain]
    constructor
    · intro hx
      by_cases he : (explainEntries ms p).isEmpty = true
      · exact List.isEmpty_iff.1 he
      · rw [if_neg he] at hx
        have h1 := explain_positive_head p (explainEntries ms p)
        rw [hx, neutral_head] at h1
        exact absurd (Option.some.inj h1) (by decide)
    · intro hx
      rw [if_pos (List.isEmpty_iff.2 hx)]

/-! ### Concrete orchestrator scenario data (counterexamples and witnesses) -/

/-- A concrete error-severity violation (the shape `ModuleCompletenessRule`
produces). -/
def errViol : PolicyViolation :=
  { rule_id := "module-completeness", severity := "error",
    message := "Module 'setup' missing objective", path := some "modules.yml#setup" }

/-- A rule engineered to return one error violation (the spec's own test
framing for the policy gate). -/
def errRule : PolicyRule := fun _ => [errViol]

/-- A fresh world: no persisted state, no files. -/
def exWorldEmpty : World := { persisted := none, repoFiles := [], reportFiles := [] }

/-- A persisted state whose hash is *not* the digest hash of `exSpec`. -/
def exStateStale : OrchestratorState :=
  { spec_hash := digestHash exSpec ++ "x", provider := "echo",
    last_goal := "g0", updated_at := "t0" }

/-- A world persisting `exStateStale`. -/
def exWorldStale : World :=
  { persisted := some exStateStale, repoFiles := [], reportFiles := [] }

/-! ### Helper lemmas for the orchestrator claims -/

/-- `_apply_changes` on a ChangeSet of `create` actions writes exactly its
entries, in order, after the existing files. -/
theorem applyChanges_all_create (changes : List Change) (files : List (String × String))
    (h : ∀ c ∈ changes, c.action = "create") :
    applyChanges changes files
      = files ++ changes.map (fun c => (c.path, changeContent c)) := by
  induction changes generalizing files with
  | nil => simp [applyChanges]
  | cons c rest ih =>
    have hc : c.action = "create" := h c (List.mem_cons_self _ _)
    have hstep : applyChanges (c :: rest) files
        = applyChanges rest (files ++ [(c.path, changeContent c)]) := by
      show List.foldl _ (if c.action = "create" then _ else _) rest = _
      rw [if_pos hc]
      rfl
    rw [hstep, ih _ (fun c' h' => h c' (List.mem_cons_of_mem _ h'))]
    simp

/-- `PolicyEngine.check` concatenates every registered rule's violations in
registration order. -/
theorem engineCheck_flatten (rules : List PolicyRule) (ctx : RuleContext) :
    engineCheck rules ctx = (rules.map (fun r => r ctx)).flatten := by
  have key : ∀ (rs : List PolicyRule) (acc : List PolicyViolation),
      rs.foldl (fun acc r => acc ++ r ctx) acc = acc ++ (rs.map (fun r => r ctx)).flatten := by
    intro rs
    induction rs with
    | nil => intro acc; simp
    | cons r rest ih =>
      intro acc
      simp only [List.foldl_cons, List.map_cons, List.flatten_cons]
      rw [ih]
      simp
  simpa [engineCheck] using key rules []

/-- **C1.** When a persisted state exists and its recorded digest hash
differs from the freshly computed one, `apply` raises the stability
`RuntimeError` before the ChangeSet stage: the call returns the stability
error and the world — persisted state, target-repository files, report
files — is exactly as before, so no ChangeSet file is written. -/
theorem apply_stability_gate (rules : List PolicyRule) (spec : Specification)
    (goal : String) (allowViolations : List String) (targetDir : Option String)
    (provider now : String) (w : World) (st : OrchestratorState)
    (hst : w.persisted = some st) (hne : st.spec_hash ≠ digestHash spec) :
    applyOp rules spec goal allowViolations targetDir provider now w
      = (Except.error stabilityMsg, w) := by
  simp only [applyOp, hst]
  rw [if_pos hne]

/-- Witness for C1 at concrete inputs: the persisted hash `digestHash exSpec
++ "x"` cannot equal `digestHash exSpec` (length), so the apply fails with
the stability error and writes nothing. -/
theorem apply_stability_gate_witness :
    applyOp [errRule] exSpec "add lab" [] none "echo" "t1" exWorldStale
      = (Except.error stabilityMsg, exWorldStale) :=
  apply_stability_gate [errRule] exSpec "add lab" [] none "echo" "t1" exWorldStale
    exStateStale rfl
    (fun h => by
      have hlen := congrArg String.length h
      rw [show exStateStale.spec_hash = digestHash exSpec ++ "x" from rfl,
        String.length_append, show ("x" : String).length = 1 from rfl] at hlen
      omega)

/-- **C2.** The apply gate is all-or-nothing.  First conjunct: for every
ChangeSet of `create`-actions (every ChangeSet `apply` stages is one, by
the third conjunct) and every violation list, if an error-severity
violation is present the stage writes nothing and leaves the world
untouched; otherwise it writes every entry of the ChangeSet.  Second
conjunct: on any stability-passing call, `apply`'s repository writes are
exactly this stage applied to the staged ChangeSet and the violations
surviving allow-list filtering. -/
theorem apply_all_or_nothing (rules : List PolicyRule) (spec : Specification)
    (goal : String) (allowViolations : List String) (targetDir : Option String)
    (provider now : String) (w : World)
    (hok : ∀ st, w.persisted = some st → st.spec_hash = digestHash spec) :
    (∀ (changes : List Change) (violations : List PolicyViolation) (w' : World),
      (∀ c ∈ changes, c.action = "create") →
      (hasErrors violations = true → applyStage changes violations w' = w')
      ∧ (hasErrors violations = false →
          (applyStage changes violations w').repoFiles
            = w'.repoFiles ++ changes.map (fun c => (c.path, changeContent c))))
    ∧ ((applyOp rules spec goal allowViolations targetDir provider now w).2.repoFiles
        = (applyStage (simulateChanges goal)
            (survivingViolations rules spec targetDir allowViolations) w).repoFiles)
    ∧ (∀ g, ∀ c ∈ simulateChanges g, c.action = "create") := by
  refine ⟨?_, ?_, ?_⟩
  · intro changes violations w' hcreate
    constructor
    · intro herr
      simp [applyStage, herr]
    · intro hnoerr
      simp only [applyStage, hnoerr]
      simp [applyChanges_all_create changes w'.repoFiles hcreate]
  · have hpost : (applyPost rules spec goal allowViolations targetDir provider now w).2.repoFiles
        = (applyStage (simulateChanges goal)
            (survivingViolations rules spec targetDir allowViolations) w).repoFiles := rfl
    cases hw : w.persisted with
    | none =>
      simp only [applyOp, hw]
      exact hpost
    | some st =>
      simp only [applyOp, hw]
      rw [if_neg (by simp [hok st hw])]
      exact hpost
  · intro g c hc
    simp only [simulateChanges, List.mem_singleton] at hc
    rw [hc]

/-- Witness for C2 at concrete inputs (fresh world, no persisted state). -/
theorem apply_all_or_nothing_witness :
    ((applyOp [errRule] exSpec "add lab" [] none "echo" "t1" exWorldEmpty).2.repoFiles
      = (applyStage (simulateChanges "add lab")
          (survivingViolations [errRule] exSpec none []) exWorldEmpty).repoFiles)
    ∧ applyStage (simulateChanges "add lab")
        (survivingViolations [errRule] exSpec none []) exWorldEmpty = exWorldEmpty :=
  ⟨(apply_all_or_nothing [errRule] exSpec "add lab" [] none "echo" "t1" exWorldEmpty
      (fun st h => by simp [exWorldEmpty] at h)).2.1,
   (apply_all_or_nothing [errRule] exSpec "add lab" [] none "echo" "t1" exWorldEmpty
      (fun st h => by simp [exWorldEmpty] at h)).1
     (simulateChanges "add lab") (survivingViolations [errRule] exSpec none []) exWorldEmpty
     (fun c hc => by simp only [simulateChanges, List.mem_singleton] at hc; rw [hc])
     |>.1 (by decide)⟩

/-- **C3, counterexample.**  An apply blocked by a surviving error-severity
violation still rewrites the persisted `OrchestratorState`
(`_update_state` runs unconditionally at orchestrator.py:160): starting
from a world with no persisted state, the blocked apply (success is
`false`, no repository file written) ends with a persisted state. -/
theorem apply_state_persisted_counterexample :
    (applyOp [errRule] exSpec "g" [] none "echo" "t1" exWorldEmpty).2.persisted.isSome = true
    ∧ exWorldEmpty.persisted.isSome = false
    ∧ ((applyOp [errRule] exSpec "g" [] none "echo" "t1" exWorldEmpty).1.toOption.map
        (fun r => r.success)) = some false
    ∧ (applyOp [errRule] exSpec "g" [] none "echo" "t1" exWorldEmpty).2.repoFiles = [] :=
  ⟨rfl, rfl, rfl, rfl⟩

/-- **C3, amended.**  The persisted `OrchestratorState` is overwritten (or
created) by *every* apply that passes the stability check — also by an
apply blocked at the policy gate — and it records the just-verified digest
hash, the backend identifier, the goal, and the timestamp.  Only an apply
that fails the stability check leaves the persisted state (and the rest of
the world) unchanged, which is `apply_stability_gate` (C1). -/
theorem apply_state_persisted_amended (rules : List PolicyRule) (spec : Specification)
    (goal : String) (allowViolations : List String) (targetDir : Option String)
    (provider now : String) (w : World)
    (hok : ∀ st, w.persisted = some st → st.spec_hash = digestHash spec) :
    (applyOp rules spec goal allowViolations targetDir provider now w).2.persisted
      = some { spec_hash := digestHash spec, provider := provider,
               last_goal := goal, updated_at := now } := by
  have hpost : (applyPost rules spec goal allowViolations targetDir provider now w).2.persisted
      = some { spec_hash := digestHash spec, provider := provider,
               last_goal := goal, updated_at := now } := rfl
  cases hw : w.persisted with
  | none =>
    simp only [applyOp, hw]
    exact hpost
  | some st =>
    simp only [applyOp, hw]
    rw [if_neg (by simp [hok st hw])]
    exact hpost

/-- Witness for the amended C3 at concrete inputs: the blocked apply on a
fresh world persists the state with the fresh digest hash. -/
theorem apply_state_persisted_amended_witness :
    (applyOp [errRule] exSpec "g" [] none "echo" "t1" exWorldEmpty).2.persisted
      = some { spec_hash := digestHash exSpec, provider := "echo",
               last_goal := "g", updated_at := "t1" } :=
  apply_state_persisted_amended [errRule] exSpec "g" [] none "echo" "t1" exWorldEmpty
    (fun st h => by simp [exWorldEmpty] at h)

/-- **C7, counterexample.**  `check` is not write-free: it regenerates the
compliance report (spec §6; the source's `check` calls
`ComplianceReporter.generate_reports`, modelled from the spec since
`forge/reporters.py` is not in the sources).  A concrete `check` run on a
fresh world appends one report file, so the world changes. -/
theorem check_writes_report_counterexample :
    (checkOp [] exSpec none exWorldEmpty).2 ≠ exWorldEmpty
    ∧ (checkOp [] exSpec none exWorldEmpty).2.reportFiles.length = 1
    ∧ exWorldEmpty.reportFiles.length = 0
    ∧ (checkOp [] exSpec none exWorldEmpty).2.persisted = exWorldEmpty.persisted := by
  refine ⟨?_, rfl, rfl, rfl⟩
  intro h
  have h1 : (checkOp [] exSpec none exWorldEmpty).2.reportFiles.length = 1 := rfl
  rw [h] at h1
  simp [exWorldEmpty] at h1

/-- **C7, amended.**  For every target-directory argument, `check` runs the
engine's full rule set — its result is the concatenation of every
registered rule's violations in registration order — and never modifies
the persisted `OrchestratorState` and never writes into the target
repository; its only write is regenerating the compliance report. -/
theorem check_pure_except_report (rules : List PolicyRule) (spec : Specification)
    (targetDir : Option String) (w : World) :
    (checkOp rules spec targetDir w).1
      = (rules.map (fun r => r { spec := spec, target_dir := targetDir })).flatten
    ∧ (checkOp rules spec targetDir w).2.persisted = w.persisted
    ∧ (checkOp rules spec targetDir w).2.repoFiles = w.repoFiles
    ∧ (checkOp rules spec targetDir w).2.reportFiles
        = w.reportFiles ++ [("compliance.md",
            renderReport (engineCheck rules { spec := spec, target_dir := targetDir }))] := by
  refine ⟨?_, rfl, rfl, rfl⟩
  exact engineCheck_flatten rules { spec := spec, target_dir := targetDir }

/-- Witness for C8 at concrete inputs: `other/README.md` is *not* among the
declared deliverables of `exModule`, yet its basename matches
`labs/setup/README.md`'s, so `explain` reports it as that module's
deliverable. -/
theorem explain_basename_match_witness :
    ("other/README.md" ∉ exModule.deliverables)
    ∧ deliverableEntry exModule ∈ explainEntries [exModule] "other/README.md" :=
  ⟨by decide,
   (explain_basename_match [exModule] "other/README.md" exModule
      (List.mem_singleton.2 rfl) (by decide)).1⟩

/-- Witness for C9 at concrete inputs: sixteen separator-free lines appended
after a closed slide add no total-content violation. -/
theorem total_content_skips_final_segment_witness :
    (∀ x ∈ List.replicate 16 "line", pyStrip x ≠ "---")
    ∧ totalContentViolations "s.md" (["intro", "---"] ++ List.replicate 16 "line")
        = totalContentViolations "s.md" ["intro", "---"] :=
  ⟨by decide,
   (total_content_skips_final_segment "s.md" ["intro", "---"] (List.replicate 16 "line")
      (by decide)).1⟩

end Forge
